import Mathlib

/-
Verification of the concurrent radio-URL enrichment pipeline
(web-radio-podcast-picker/check-url, src/CheckURL.py).

Shallow embedding conventions:
  - Every external effect (HTTP response, DNS answer, subprocess output,
    geocoder answer) is passed in as an explicit oracle value; an oracle of
    type Except Unit A is either the successful payload (ok) or a raised
    exception (error), matching a Python try/except boundary.
  - Machine side: Python strings become Lean String, the in-memory caches
    (plain dicts guarded by a lock) become association lists, the dedup
    set becomes a list with membership test.  The critical sections in the
    source contain no await, so under the asyncio single-threaded model
    each lock-guarded check-or-insert is one atomic step; a run of the
    pipeline is therefore modelled as a sequence of those atomic steps.
  - Numeric delays (time.sleep arguments) are modelled with rationals;
    random.random() is an oracle returning a rational in [0, 1).
-/

/-- Key of the dedup ledger: the (name, url) pair. -/
abbrev Key := String × String

/-- The ip-geolocation cache: resolved address to (latitude, longitude). -/
abbrev IpCache := List (String × (String × String))

/-- The reverse-geocode cache: (latitude, longitude) to (country, country_code). -/
abbrev GeoCache := List ((String × String) × (String × String))

/-- CheckURL.py line 20 (clean_text): re-encodes a str as UTF-8 with
replacement.  A Lean String is always valid Unicode, so on the whole
domain of the model this is the identity. -/
def clean_text (s : String) : String := s

/-- Python str.split on a single comma, over the character list:
splits at every comma, keeps empty pieces, and maps the empty string
to a single empty piece (Python returns a one-element list there). -/
def splitComma : List Char → List (List Char)
  | [] => [[]]
  | c :: rest =>
    if c = ',' then [] :: splitComma rest
    else
      match splitComma rest with
      | [] => [[c]]
      | h :: t => (c :: h) :: t

/-- String-level view of splitComma, the model of locStr.split(",")
in CheckURL.py line 130. -/
def split_loc (s : String) : List String :=
  (splitComma s.data).map (fun cs => String.mk cs)

/-- CheckURL.py lines 130-132: split the loc field on a comma; a missing
index or an empty piece yields the sentinel. -/
def parseLoc (locStr : String) : String × String :=
  let loc := split_loc locStr
  let latitude := if loc.getD 0 "" ≠ "" then loc.getD 0 "" else "?"
  let longitude := if loc.getD 1 "" ≠ "" then loc.getD 1 "" else "?"
  (latitude, longitude)

/-- CheckURL.py lines 123-137 (get_server_info).  The resp oracle is the
outcome of the HTTP GET to the geolocation service: error for a raised
network/JSON failure, ok locStr for a parsed body whose loc field is
locStr (the Python data.get("loc", "") turns a missing field into "").
Returns the coordinate pair, the cache after the call, and a flag that
is true exactly when the external HTTP call was issued (cache miss).
A raised failure propagates (the bare raise on line 137). -/
def get_server_info (cache : IpCache) (ip : String) (resp : Except Unit String) :
    Except Unit ((String × String) × IpCache × Bool) :=
  match cache.lookup ip with
  | some ll => .ok (ll, cache, false)
  | none =>
    match resp with
    | .error e => .error e
    | .ok locStr =>
      let ll := parseLoc locStr
      .ok (ll, (ip, ll) :: cache, true)

/-- The address component of a Nominatim result (CheckURL.py line 154). -/
structure Address where
  country : Option String
  country_code : Option String
deriving DecidableEq, Repr

/-- CheckURL.py lines 142-162 (reverse_geocode).  The lookup oracle is the
outcome of everything inside the try block up to the location value:
error for any raised failure (timeout, float parse, service error),
ok none for a falsy location, ok (some addr) for a result.  The source
catches every exception and returns the sentinel pair, so the model is a
total function; the cache is inserted into only on success with a
location.  The returned flag is true exactly when the external lookup
was attempted (cache miss). -/
def reverse_geocode (cache : GeoCache) (latitude longitude : String)
    (lookup : Except Unit (Option Address)) :
    (String × String) × GeoCache × Bool :=
  match cache.lookup (latitude, longitude) with
  | some cc => (cc, cache, false)
  | none =>
    match lookup with
    | .error _ => (("?", "?"), cache, true)
    | .ok none => (("?", "?"), cache, true)
    | .ok (some addr) =>
      let cc := (addr.country.getD "?", addr.country_code.getD "?")
      (cc, ((latitude, longitude), cc) :: cache, true)

/-- One stream object of the ffprobe JSON output (CheckURL.py lines 180-187).
All fields are modelled as the string rendering of the JSON value; a
missing field is none. -/
structure StreamEntry where
  codec_type : Option String
  codec_name : Option String
  sample_rate : Option String
  bit_rate : Option String
  channels : Option String
  channel_layout : Option String
deriving DecidableEq, Repr

/-- The stdout of the ffprobe subprocess as seen by CheckURL.py line 180:
empty models falsy stdout (the source then parses the literal two-brace
string, i.e. an empty JSON object), parsed models well-formed JSON with
its streams array, malformed models stdout on which json.loads raises. -/
inductive FfOut
  | empty
  | parsed (streams : List StreamEntry)
  | malformed
deriving DecidableEq, Repr

/-- CheckURL.py lines 181-188: pick the first stream whose codec_type is
audio (an empty dict when there is none) and read the five fields with
the sentinel as default. -/
def extractAudio (streams : List StreamEntry) :
    String × String × String × String × String :=
  match streams.find? (fun s => s.codec_type == some "audio") with
  | some s =>
    (s.codec_name.getD "?", s.sample_rate.getD "?", s.bit_rate.getD "?",
     s.channels.getD "?", s.channel_layout.getD "?")
  | none => ("?", "?", "?", "?", "?")

/-- CheckURL.py lines 167-190 (get_audio_stream_info_async).  The source
never reads process.returncode, so the exit code is a parameter the
result cannot depend on.  Malformed stdout makes json.loads raise, and
the bare raise on line 190 propagates it to the retry wrapper; empty
stdout is replaced by an empty JSON object and parsed normally. -/
def get_audio_stream_info_async (_exitCode : Nat) (out : FfOut) :
    Except Unit (String × String × String × String × String) :=
  match out with
  | .malformed => .error ()
  | .empty => .ok (extractAudio [])
  | .parsed streams => .ok (extractAudio streams)

/-- The five icy response headers of CheckURL.py lines 200-204; a missing
header is none. -/
structure IcyHeaders where
  br : Option String
  description : Option String
  genre : Option String
  name : Option String
  pub : Option String
deriving DecidableEq, Repr

/-- The five icy fields after applying the sentinel defaults. -/
structure IcyMeta where
  br : String
  description : String
  genre : String
  name : String
  pub : String
deriving DecidableEq, Repr

/-- CheckURL.py lines 195-207 (get_icy_metadata): on a successful response
read each header with the sentinel default; a raised failure propagates
(line 207). -/
def get_icy_metadata (resp : Except Unit IcyHeaders) : Except Unit IcyMeta :=
  resp.map fun h =>
    ⟨h.br.getD "?", h.description.getD "?", h.genre.getD "?",
     h.name.getD "?", h.pub.getD "?"⟩

/-- CheckURL.py lines 103-108 (check_radio_url): the resp oracle is the
HTTP status of the GET, or a raised failure (connection error, timeout,
TLS error), which the bare raise on line 108 propagates.  On a response
the result is the comparison of the status with 200. -/
def check_radio_url (resp : Except Unit Nat) : Except Unit Bool :=
  match resp with
  | .ok status => .ok (status == 200)
  | .error e => .error e

/-- CheckURL.py lines 89-98 (async_retry).  f k is the outcome of the
k-th invocation of the wrapped coroutine (1-based), rand k the value of
random.random() drawn after the k-th failed attempt.  The first Nat
argument is the current attempt number, the second the number of
attempts still allowed.  Result: the returned value (none when every
attempt raised), the number of invocations made, and the list of sleep
durations, in order. -/
def async_retry (f : Nat → Except Unit α) (delay backoff : ℚ) (rand : Nat → ℚ) :
    Nat → Nat → Option α × Nat × List ℚ
  | _, 0 => (none, 0, [])
  | attempt, rem + 1 =>
    match f attempt with
    | .ok a => (some a, 1, [])
    | .error _ =>
      if rem = 0 then (none, 1, [])
      else
        let rest := async_retry f delay backoff rand (attempt + 1) rem
        (rest.1, rest.2.1 + 1,
          (delay * backoff ^ (attempt - 1) + rand attempt * (1 / 10)) :: rest.2.2)

/-- The value component of async_retry, for call sites that only use the
returned value (the sleep durations do not influence it). -/
def retryResult (f : Nat → Except Unit α) : Nat → Nat → Option α
  | _, 0 => none
  | attempt, rem + 1 =>
    match f attempt with
    | .ok a => some a
    | .error _ => retryResult f (attempt + 1) rem

/-- One input row of the input CSV (name and url columns). -/
structure StationInput where
  name : String
  url : String
deriving DecidableEq, Repr

/-- One output row of the result store, the dict built on CheckURL.py
lines 254-265 (Lean field names replace the dash of the icy keys with an
underscore). -/
structure Row where
  name : String
  url : String
  availability : String
  country : String
  country_code : String
  latitude : String
  longitude : String
  codec : String
  sample_rate : String
  bitrate : String
  channels : String
  channel_layout : String
  icy_br : String
  icy_description : String
  icy_genre : String
  icy_name : String
  icy_pub : String
deriving DecidableEq, Repr

/-- The shared mutable state of the pipeline: the dedup ledger
existing_entries and the two caches. -/
structure PRState where
  entries : List Key
  ipCache : IpCache
  geoCache : GeoCache
deriving DecidableEq, Repr

/-- The oracle bundle for one station: the outcome of every external
interaction process_radio can perform on it.  liveness k, serverInfo k,
audioExit k / audioOut k and icy k describe the k-th retry attempt of
the respective probe. -/
structure Oracles where
  liveness : Nat → Except Unit Nat
  ip : Option String
  serverInfo : Nat → Except Unit String
  geocode : Except Unit (Option Address)
  audioExit : Nat → Nat
  audioOut : Nat → FfOut
  icy : Nat → Except Unit IcyHeaders

/-- async_retry applied to get_server_info (CheckURL.py line 231), with
the cache threaded through.  A failed attempt raises before the cache
insert, so it leaves the cache unchanged; a successful attempt returns
immediately.  Arguments as in async_retry: current attempt, remaining
attempts. -/
def retryServerInfo (cache : IpCache) (ip : String)
    (resps : Nat → Except Unit String) :
    Nat → Nat → Option (String × String) × IpCache
  | _, 0 => (none, cache)
  | attempt, rem + 1 =>
    match get_server_info cache ip (resps attempt) with
    | .ok (ll, cache', _) => (some ll, cache')
    | .error _ => retryServerInfo cache ip resps (attempt + 1) rem

/-- The enrichment fields of a record, before name/url/availability are
attached. -/
structure EnrichFields where
  country : String
  country_code : String
  latitude : String
  longitude : String
  codec : String
  sample_rate : String
  bitrate : String
  channels : String
  channel_layout : String
  icy : IcyMeta
deriving DecidableEq, Repr

/-- The all-sentinel enrichment, the defaults of CheckURL.py
lines 224-226. -/
def unknownEnrich : EnrichFields :=
  ⟨"?", "?", "?", "?", "?", "?", "?", "?", "?", ⟨"?", "?", "?", "?", "?"⟩⟩

/-- CheckURL.py lines 229-241, the enrichment sequence run when the
station is available.  Returns the enrichment fields, the caches after
the run, and the list of argument pairs of every reverse_geocode
invocation made. -/
def enrichAvailable (ipCache : IpCache) (geoCache : GeoCache) (o : Oracles) :
    EnrichFields × IpCache × GeoCache × List (String × String) :=
  let sres :=
    match o.ip with
    | some ipaddr => retryServerInfo ipCache ipaddr o.serverInfo 1 3
    | none => (none, ipCache)
  let latlong := sres.1
  let ll0 := latlong.getD ("?", "?")
  let geo :=
    match latlong with
    | some ll =>
      if ll.1 ≠ "?" ∧ ll.2 ≠ "?" then
        let r := reverse_geocode geoCache ll.1 ll.2 o.geocode
        (r.1, r.2.1, [ll])
      else (("?", "?"), geoCache, ([] : List (String × String)))
    | none => (("?", "?"), geoCache, ([] : List (String × String)))
  let audio :=
    (retryResult (fun k => get_audio_stream_info_async (o.audioExit k) (o.audioOut k)) 1 2).getD
      ("?", "?", "?", "?", "?")
  let icym :=
    (retryResult (fun k => get_icy_metadata (o.icy k)) 1 2).getD
      ⟨"?", "?", "?", "?", "?"⟩
  (⟨geo.1.1, geo.1.2, ll0.1, ll0.2, audio.1, audio.2.1, audio.2.2.1,
    audio.2.2.2.1, audio.2.2.2.2, icym⟩,
   sres.2, geo.2.1, geo.2.2)

/-- Assemble the output dict of CheckURL.py lines 254-265. -/
def mkRowFrom (name url availability : String) (e : EnrichFields) : Row :=
  { name := name, url := url, availability := availability,
    country := e.country, country_code := e.country_code,
    latitude := e.latitude, longitude := e.longitude,
    codec := e.codec, sample_rate := e.sample_rate, bitrate := e.bitrate,
    channels := e.channels, channel_layout := e.channel_layout,
    icy_br := e.icy.br, icy_description := e.icy.description,
    icy_genre := e.icy.genre, icy_name := e.icy.name, icy_pub := e.icy.pub }

/-- CheckURL.py lines 212-265 (process_radio).  The entry_lock critical
section (lines 217-221) contains no await, so it is one atomic step:
the model tests membership and inserts in the same step.  Returns the
written record (none when the key was already claimed), the state after
the call, and the reverse_geocode invocation argument list. -/
def process_radio (row : StationInput) (st : PRState) (o : Oracles) :
    Option Row × PRState × List (String × String) :=
  let name := clean_text row.name
  let url := clean_text row.url
  let key := (name, url)
  if key ∈ st.entries then (none, st, [])
  else
    let live := retryResult (fun k => check_radio_url (o.liveness k)) 1 3
    let availability := if live = some true then "1" else "0"
    let e :=
      if availability = "1" then enrichAvailable st.ipCache st.geoCache o
      else (unknownEnrich, st.ipCache, st.geoCache, ([] : List (String × String)))
    (some (mkRowFrom name url availability e.1),
     ⟨key :: st.entries, e.2.1, e.2.2.1⟩, e.2.2.2)

/-- CheckURL.py lines 77-84 (load_existing_entries): the set of
(name, url) pairs of the rows already in the output store. -/
def load_existing_entries (store : List Row) : List Key :=
  store.map fun r => (r.name, r.url)

/-- CheckURL.py lines 270-300 (process_csv_async), restricted to the
dedup-and-write behaviour: each station task claims its key and, when
the claim is fresh, appends exactly the record process_radio built.
The per-item oracle bundle carries the external world.  The claim step
is atomic (see process_radio), so every interleaving of the concurrent
tasks is some sequential order of these steps; the list order of items
is that order. -/
def process_csv : List (StationInput × Oracles) → PRState → PRState × List Row
  | [], st => (st, [])
  | item :: rest, st =>
    let res := process_radio item.1 st item.2
    let restRun := process_csv rest res.2.1
    match res.1 with
    | some r => (restRun.1, r :: restRun.2)
    | none => restRun

/-- Number of rows of a list whose (name, url) pair is the given key. -/
def keyCount (rows : List Row) (k : Key) : Nat :=
  rows.countP (fun r => decide ((r.name, r.url) = k))

def oraclesUnavail : Oracles :=
  { liveness := fun _ => .error (), ip := none, serverInfo := fun _ => .error (),
    geocode := .error (), audioExit := fun _ => 0, audioOut := fun _ => .empty,
    icy := fun _ => .error () }

def oraclesAvail : Oracles :=
  { liveness := fun _ => .ok 200, ip := some "1.2.3.4",
    serverInfo := fun _ => .ok "12.34,56.78", geocode := .ok none,
    audioExit := fun _ => 0, audioOut := fun _ => .empty,
    icy := fun _ => .error () }

def storeW : List Row :=
  [{ name := "A", url := "u", availability := "0",
     country := "?", country_code := "?", latitude := "?", longitude := "?",
     codec := "?", sample_rate := "?", bitrate := "?", channels := "?",
     channel_layout := "?", icy_br := "?", icy_description := "?",
     icy_genre := "?", icy_name := "?", icy_pub := "?" }]

def itemsW : List (StationInput × Oracles) := [(⟨"A", "u"⟩, oraclesUnavail)]

/-- async_retry computes retryResult in its value component. -/
theorem async_retry_fst (f : Nat → Except Unit α) (delay backoff : ℚ)
    (rand : Nat → ℚ) : ∀ attempt rem,
    (async_retry f delay backoff rand attempt rem).1 = retryResult f attempt rem := by
  intro attempt rem
  induction rem generalizing attempt with
  | zero => rfl
  | succ n ih =>
    simp only [async_retry, retryResult]
    cases f attempt with
    | ok a => rfl
    | error e =>
      by_cases h : n = 0
      · subst h; rfl
      · simp only [if_neg h]
        exact ih (attempt + 1)

theorem async_retry_count_le (g : Nat → Except Unit α) (d b : ℚ) (rand : Nat → ℚ) :
    ∀ a r, (async_retry g d b rand a r).2.1 ≤ r := by
  intro a r
  induction r generalizing a with
  | zero => simp [async_retry]
  | succ n ih =>
    simp only [async_retry]
    cases g a with
    | ok x => simp
    | error e =>
      by_cases h : n = 0
      · subst h; simp
      · simp only [if_neg h]
        have := ih (a + 1)
        show (async_retry g d b rand (a + 1) n).2.1 + 1 ≤ n + 1
        omega

theorem async_retry_all_fail (f : Nat → Except Unit α) (d b : ℚ) (rand : Nat → ℚ)
    (hfail : ∀ k, f k = Except.error ()) :
    ∀ a r, 1 ≤ a →
      (async_retry f d b rand a r).1 = none ∧
      (async_retry f d b rand a r).2.2 =
        (List.range (r - 1)).map (fun i => d * b ^ (a - 1 + i) + rand (a + i) * (1 / 10)) := by
  intro a r
  induction r generalizing a with
  | zero => intro _; simp [async_retry]
  | succ n ih =>
    intro ha
    simp only [async_retry, hfail a]
    by_cases h : n = 0
    · subst h; simp
    · simp only [if_neg h]
      obtain ⟨m, rfl⟩ : ∃ m, n = m + 1 := ⟨n - 1, by omega⟩
      have hrest := ih (a + 1) (by omega)
      refine ⟨hrest.1, ?_⟩
      simp only [hrest.2, Nat.add_sub_cancel]
      have hfun : ((fun i => d * b ^ (a - 1 + i) + rand (a + i) * (1 / 10)) ∘ Nat.succ)
          = (fun i => d * b ^ (a + i) + rand (a + 1 + i) * (1 / 10)) := by
        funext i
        simp only [Function.comp_apply, Nat.succ_eq_add_one]
        rw [(by omega : a - 1 + (i + 1) = a + i), (by omega : a + (i + 1) = a + 1 + i)]
      rw [List.range_succ_eq_map]
      simp only [List.map_cons, List.map_map, hfun]
      congr 1

/-- Claim C3: async_retry invokes the wrapped function at most retries
times; when every attempt raises it returns none instead of propagating
the final exception; and the sleep before retry attempt k (the k-th
element of the sleep list, 0-based index i = k - 1) equals
delay times backoff to the (k - 1), plus the jitter term, the drawn
random value scaled by one tenth. -/
theorem c3_async_retry (f : Nat → Except Unit α) (delay backoff : ℚ)
    (rand : Nat → ℚ) (retries : Nat)
    (hfail : ∀ k, f k = Except.error ()) :
    (∀ g : Nat → Except Unit α, (async_retry g delay backoff rand 1 retries).2.1 ≤ retries) ∧
    (async_retry f delay backoff rand 1 retries).1 = none ∧
    (async_retry f delay backoff rand 1 retries).2.2 =
      (List.range (retries - 1)).map
        (fun i => delay * backoff ^ i + rand (i + 1) * (1 / 10)) := by
  refine ⟨fun g => async_retry_count_le g delay backoff rand 1 retries,
    (async_retry_all_fail f delay backoff rand hfail 1 retries le_rfl).1, ?_⟩
  rw [(async_retry_all_fail f delay backoff rand hfail 1 retries le_rfl).2]
  refine List.map_congr_left fun i _ => ?_
  rw [(by omega : (1:ℕ) - 1 + i = i), Nat.add_comm 1 i]

theorem c3_async_retry_witness :
    (∀ k : Nat, (fun _ : Nat => (Except.error () : Except Unit Bool)) k = Except.error ()) ∧
    (async_retry (fun _ : Nat => (Except.error () : Except Unit Bool)) 1 2 (fun _ : Nat => (0:ℚ)) 1 3).2.1 ≤ 3 ∧
    (async_retry (fun _ : Nat => (Except.error () : Except Unit Bool)) 1 2 (fun _ : Nat => (0:ℚ)) 1 3).1 = none ∧
    (async_retry (fun _ : Nat => (Except.error () : Except Unit Bool)) 1 2 (fun _ : Nat => (0:ℚ)) 1 3).2.2 =
      (List.range 2).map (fun i => 1 * 2 ^ i + 0 * (1 / 10)) :=
  ⟨fun _ => rfl,
   (c3_async_retry (fun _ => Except.error ()) 1 2 (fun _ => 0) 3 (fun _ => rfl)).1 _,
   (c3_async_retry (fun _ => Except.error ()) 1 2 (fun _ => 0) 3 (fun _ => rfl)).2.1,
   (c3_async_retry (fun _ => Except.error ()) 1 2 (fun _ => 0) 3 (fun _ => rfl)).2.2⟩

/-- Claim C4 counterexample: the source compares the HTTP status with 200
exactly (line 106), so status 206, which lies in the 200 class, is
classified unavailable; the claimed iff fails at 206. -/
theorem c4_counterexample :
    ¬ (check_radio_url (Except.ok 206) = Except.ok true ↔ (200 ≤ 206 ∧ 206 < 300)) := by
  intro h
  have h2 := h.mpr (by norm_num)
  simp [check_radio_url] at h2

/-- Claim C4 amended: the liveness prober classifies a response as
available iff the status equals 200 exactly (not the whole 200 class);
a raised failure (connection error, timeout, TLS error) propagates to
the retry wrapper, and the availability flag of the written record is 1
iff the retried check returned true. -/
theorem c4_liveness_amended :
    (∀ status : Nat, check_radio_url (Except.ok status) = Except.ok (status == 200)) ∧
    (∀ e : Unit, check_radio_url (Except.error e) = Except.error e) ∧
    (∀ row st o r, (process_radio row st o).1 = some r →
      (r.availability = "1" ↔
        retryResult (fun k => check_radio_url (o.liveness k)) 1 3 = some true)) := by
  refine ⟨fun _ => rfl, fun _ => rfl, fun row st o r h => ?_⟩
  simp only [process_radio, clean_text] at h
  by_cases hmem : (row.name, row.url) ∈ st.entries
  · rw [if_pos hmem] at h
    exact absurd h (by simp)
  · rw [if_neg hmem] at h
    by_cases hl : retryResult (fun k => check_radio_url (o.liveness k)) 1 3 = some true
    · rw [if_pos hl] at h
      simp only [Option.some.injEq] at h
      subst h
      simp [mkRowFrom, hl]
    · rw [if_neg hl] at h
      rw [if_neg (by decide : ¬ ("0" : String) = "1")] at h
      simp only [Option.some.injEq] at h
      subst h
      simp only [mkRowFrom]
      constructor
      · intro h0
        exact absurd h0 (by decide)
      · intro h0
        exact absurd h0 hl

theorem c4_liveness_witness :
    ((process_radio ⟨"A", "u"⟩ ⟨[], [], []⟩ oraclesAvail).1 =
      some { name := "A", url := "u", availability := "1",
             country := "?", country_code := "?", latitude := "12.34", longitude := "56.78",
             codec := "?", sample_rate := "?", bitrate := "?", channels := "?",
             channel_layout := "?", icy_br := "?", icy_description := "?",
             icy_genre := "?", icy_name := "?", icy_pub := "?" }) ∧
    (({ name := "A", url := "u", availability := "1",
        country := "?", country_code := "?", latitude := "12.34", longitude := "56.78",
        codec := "?", sample_rate := "?", bitrate := "?", channels := "?",
        channel_layout := "?", icy_br := "?", icy_description := "?",
        icy_genre := "?", icy_name := "?", icy_pub := "?" } : Row).availability = "1" ↔
      retryResult (fun k => check_radio_url (oraclesAvail.liveness k)) 1 3 = some true) :=
  ⟨by decide,
   c4_liveness_amended.2.2 ⟨"A", "u"⟩ ⟨[], [], []⟩ oraclesAvail _ (by decide)⟩

/-- Claim C2: when the retried liveness check does not return true, the
station is recorded with availability 0, every enrichment field is the
sentinel, no enrichment probe runs (both caches are untouched and no
reverse-geocode invocation is made), and only name, url and the
availability flag differ from the defaults. -/
theorem c2_unavailable (row : StationInput) (st : PRState) (o : Oracles)
    (hfresh : (row.name, row.url) ∉ st.entries)
    (hfail : retryResult (fun k => check_radio_url (o.liveness k)) 1 3 ≠ some true) :
    process_radio row st o =
      (some { name := row.name, url := row.url, availability := "0",
              country := "?", country_code := "?", latitude := "?", longitude := "?",
              codec := "?", sample_rate := "?", bitrate := "?", channels := "?",
              channel_layout := "?", icy_br := "?", icy_description := "?",
              icy_genre := "?", icy_name := "?", icy_pub := "?" },
       ⟨(row.name, row.url) :: st.entries, st.ipCache, st.geoCache⟩, []) := by
  simp only [process_radio, clean_text]
  rw [if_neg hfresh, if_neg hfail, if_neg (by decide : ¬ ("0" : String) = "1")]
  rfl

theorem c2_unavailable_witness :
    (("A", "http://dead.example") ∉ ([] : List Key)) ∧
    (retryResult (fun k => check_radio_url (oraclesUnavail.liveness k)) 1 3 ≠ some true) ∧
    process_radio ⟨"A", "http://dead.example"⟩ ⟨[], [], []⟩ oraclesUnavail =
      (some { name := "A", url := "http://dead.example", availability := "0",
              country := "?", country_code := "?", latitude := "?", longitude := "?",
              codec := "?", sample_rate := "?", bitrate := "?", channels := "?",
              channel_layout := "?", icy_br := "?", icy_description := "?",
              icy_genre := "?", icy_name := "?", icy_pub := "?" },
       ⟨[("A", "http://dead.example")], [], []⟩, []) :=
  ⟨by decide, by decide,
   c2_unavailable ⟨"A", "http://dead.example"⟩ ⟨[], [], []⟩ oraclesUnavail
     (by decide) (by decide)⟩

/-- Claim C5: on a cache miss, a geolocation response whose loc field
splits on the comma into two components that are nonempty (and not the
sentinel themselves) yields exactly those components as latitude and
longitude, inserted into the cache before returning; a missing field
(the empty string) or an empty component yields the sentinel for the
corresponding component. -/
theorem c5_geolocation (cache : IpCache) (ip loc la lo : String)
    (hmiss : cache.lookup ip = none)
    (hsplit : split_loc loc = [la, lo])
    (hla : la ≠ "" ∧ la ≠ "?") (hlo : lo ≠ "" ∧ lo ≠ "?") :
    (get_server_info cache ip (Except.ok loc) =
        Except.ok ((la, lo), (ip, (la, lo)) :: cache, true) ∧
      la ≠ "?" ∧ lo ≠ "?" ∧
      ((ip, (la, lo)) :: cache).lookup ip = some (la, lo)) ∧
    parseLoc "" = ("?", "?") ∧
    (∀ s t, split_loc s = ["", t] → (parseLoc s).1 = "?") ∧
    (∀ s t, split_loc s = [t, ""] → (parseLoc s).2 = "?") := by
  refine ⟨⟨?_, hla.2, hlo.2, ?_⟩, rfl, ?_, ?_⟩
  · simp [get_server_info, hmiss, parseLoc, hsplit, hla.1, hlo.1]
  · simp [List.lookup]
  · intro s t hs
    simp [parseLoc, hs]
  · intro s t hs
    simp [parseLoc, hs]

theorem c5_geolocation_witness :
    (([] : IpCache).lookup "1.2.3.4" = none) ∧
    (split_loc "12.34,56.78" = ["12.34", "56.78"]) ∧
    ("12.34" ≠ "" ∧ "12.34" ≠ "?") ∧ ("56.78" ≠ "" ∧ "56.78" ≠ "?") ∧
    (get_server_info [] "1.2.3.4" (Except.ok "12.34,56.78") =
      Except.ok (("12.34", "56.78"), [("1.2.3.4", ("12.34", "56.78"))], true)) ∧
    parseLoc "" = ("?", "?") :=
  ⟨rfl, by decide, by decide, by decide,
   ((c5_geolocation [] "1.2.3.4" "12.34,56.78" "12.34" "56.78" rfl (by decide)
      (by decide) (by decide)).1).1,
   ((c5_geolocation [] "1.2.3.4" "12.34,56.78" "12.34" "56.78" rfl (by decide)
      (by decide) (by decide)).2).1⟩

/-- Claim C8: a geolocation lookup for an address already in the cache
returns the cached pair, leaves the cache unchanged, performs no
external call (the flag is false), and a second lookup for the same
address returns the same result whatever the network would have
answered. -/
theorem c8_cache_idempotent (cache : IpCache) (ip : String) (ll : String × String)
    (resp resp2 : Except Unit String) (hhit : cache.lookup ip = some ll) :
    get_server_info cache ip resp = Except.ok (ll, cache, false) ∧
    get_server_info cache ip resp2 = get_server_info cache ip resp := by
  simp [get_server_info, hhit]

theorem c8_cache_idempotent_witness :
    (([("1.2.3.4", ("1", "2"))] : IpCache).lookup "1.2.3.4" = some ("1", "2")) ∧
    get_server_info [("1.2.3.4", ("1", "2"))] "1.2.3.4" (Except.error ()) =
      Except.ok (("1", "2"), [("1.2.3.4", ("1", "2"))], false) ∧
    get_server_info [("1.2.3.4", ("1", "2"))] "1.2.3.4" (Except.ok "9,9") =
      get_server_info [("1.2.3.4", ("1", "2"))] "1.2.3.4" (Except.error ()) :=
  ⟨by decide,
   (c8_cache_idempotent [("1.2.3.4", ("1", "2"))] "1.2.3.4" ("1", "2")
     (Except.error ()) (Except.ok "9,9") (by decide)).1,
   (c8_cache_idempotent [("1.2.3.4", ("1", "2"))] "1.2.3.4" ("1", "2")
     (Except.error ()) (Except.ok "9,9") (by decide)).2⟩

/-- Claim C9: on a cache miss, a parseable response with a missing or
empty loc field makes get_server_info insert the sentinel pair into the
cache, and every later lookup for the same address returns the sentinel
pair from the cache without contacting the service (the flag is
false). -/
theorem c9_unknown_is_cached (cache : IpCache) (ip : String)
    (resp2 : Except Unit String) (hmiss : cache.lookup ip = none) :
    get_server_info cache ip (Except.ok "") =
      Except.ok (("?", "?"), (ip, ("?", "?")) :: cache, true) ∧
    get_server_info ((ip, ("?", "?")) :: cache) ip resp2 =
      Except.ok (("?", "?"), (ip, ("?", "?")) :: cache, false) := by
  constructor
  · simp [get_server_info, hmiss]
    rfl
  · simp [get_server_info, List.lookup]

theorem c9_unknown_is_cached_witness :
    (([] : IpCache).lookup "8.8.8.8" = none) ∧
    get_server_info [] "8.8.8.8" (Except.ok "") =
      Except.ok (("?", "?"), [("8.8.8.8", ("?", "?"))], true) ∧
    get_server_info [("8.8.8.8", ("?", "?"))] "8.8.8.8" (Except.error ()) =
      Except.ok (("?", "?"), [("8.8.8.8", ("?", "?"))], false) :=
  ⟨rfl,
   (c9_unknown_is_cached [] "8.8.8.8" (Except.error ()) rfl).1,
   (c9_unknown_is_cached [] "8.8.8.8" (Except.error ()) rfl).2⟩

/-- Claim C10: on a cache miss, a failed reverse-geocode lookup (raised
failure or no location) returns the sentinel pair and leaves the cache
unchanged, so a later call with the same coordinate pair attempts the
external geocoder again (the attempted flag is true for every possible
outcome). -/
theorem c10_geo_cache_success_only (cache : GeoCache) (la lo : String)
    (hmiss : cache.lookup (la, lo) = none) :
    reverse_geocode cache la lo (Except.error ()) = (("?", "?"), cache, true) ∧
    reverse_geocode cache la lo (Except.ok none) = (("?", "?"), cache, true) ∧
    (∀ lk, (reverse_geocode cache la lo lk).2.2 = true) := by
  refine ⟨by simp [reverse_geocode, hmiss], by simp [reverse_geocode, hmiss],
    fun lk => ?_⟩
  simp only [reverse_geocode, hmiss]
  cases lk with
  | error e => rfl
  | ok v =>
    cases v with
    | none => rfl
    | some a => rfl

theorem c10_geo_cache_success_only_witness :
    (([] : GeoCache).lookup ("12.34", "56.78") = none) ∧
    reverse_geocode [] "12.34" "56.78" (Except.error ()) = (("?", "?"), [], true) ∧
    reverse_geocode [] "12.34" "56.78" (Except.ok none) = (("?", "?"), [], true) ∧
    (reverse_geocode [] "12.34" "56.78" (Except.error ())).2.2 = true :=
  ⟨rfl,
   (c10_geo_cache_success_only [] "12.34" "56.78" rfl).1,
   (c10_geo_cache_success_only [] "12.34" "56.78" rfl).2.1,
   (c10_geo_cache_success_only [] "12.34" "56.78" rfl).2.2 (Except.error ())⟩

/-- Claim C7 counterexample: the source never inspects the subprocess
exit code, so a non-zero exit whose stdout is empty is parsed as an
empty JSON object and returns the all-sentinel tuple as a normal
result, not a retryable failure; the claim that every non-zero exit
surfaces as an exception fails at exit code 1 with empty stdout. -/
theorem c7_counterexample :
    get_audio_stream_info_async 1 FfOut.empty =
      Except.ok ("?", "?", "?", "?", "?") ∧
    (∀ e : Unit, get_audio_stream_info_async 1 FfOut.empty ≠ Except.error e) := by
  refine ⟨rfl, fun e h => ?_⟩
  simp [get_audio_stream_info_async, extractAudio] at h

/-- Claim C7 amended: absence of any audio stream yields the sentinel for
all five fields; malformed (unparseable) stdout raises to the retry
wrapper; but the exit code is never inspected, so the result is the
same whatever the exit code, and in particular a non-zero exit with
empty or parseable stdout is a normal result rather than a retryable
failure. -/
theorem c7_media_probe_amended :
    (∀ (ec : Nat) (streams : List StreamEntry),
      (∀ s ∈ streams, s.codec_type ≠ some "audio") →
      get_audio_stream_info_async ec (FfOut.parsed streams) =
        Except.ok ("?", "?", "?", "?", "?")) ∧
    (∀ ec : Nat, get_audio_stream_info_async ec FfOut.malformed = Except.error ()) ∧
    (∀ (ec : Nat) (out : FfOut),
      get_audio_stream_info_async ec out = get_audio_stream_info_async 0 out) := by
  refine ⟨fun ec streams hs => ?_, fun _ => rfl, fun _ _ => rfl⟩
  simp only [get_audio_stream_info_async, extractAudio]
  rw [List.find?_eq_none.mpr]
  intro s hsmem
  simpa using hs s hsmem

theorem c7_media_probe_witness :
    (∀ s ∈ [({ codec_type := some "video", codec_name := some "h264",
               sample_rate := none, bit_rate := none, channels := none,
               channel_layout := none } : StreamEntry)], s.codec_type ≠ some "audio") ∧
    get_audio_stream_info_async 2
        (FfOut.parsed [{ codec_type := some "video", codec_name := some "h264",
                         sample_rate := none, bit_rate := none, channels := none,
                         channel_layout := none }]) =
      Except.ok ("?", "?", "?", "?", "?") :=
  ⟨by decide,
   c7_media_probe_amended.1 2
     [{ codec_type := some "video", codec_name := some "h264",
        sample_rate := none, bit_rate := none, channels := none,
        channel_layout := none }] (by decide)⟩

theorem enrichAvailable_gargs (ipc : IpCache) (gc : GeoCache) (o : Oracles)
    (p : String × String) (hp : p ∈ (enrichAvailable ipc gc o).2.2.2) :
    p.1 ≠ "?" ∧ p.2 ≠ "?" := by
  simp only [enrichAvailable] at hp
  split at hp
  · next ll =>
    split at hp
    · next hcond =>
      simp only [List.mem_singleton] at hp
      subst hp
      exact hcond
    · simp at hp
  · simp at hp

/-- Claim C6: reverse geocoding is never attempted with an unknown
coordinate: every reverse_geocode invocation process_radio makes has
both arguments different from the sentinel; and reverse_geocode itself
never raises, a failed external lookup on a cache miss yielding the
sentinel pair for country and country code. -/
theorem c6_reverse_geocode_guard :
    (∀ row st o p, p ∈ (process_radio row st o).2.2 → p.1 ≠ "?" ∧ p.2 ≠ "?") ∧
    (∀ (cache : GeoCache) (la lo : String), cache.lookup (la, lo) = none →
      reverse_geocode cache la lo (Except.error ()) = (("?", "?"), cache, true)) := by
  constructor
  · intro row st o p hp
    simp only [process_radio, clean_text] at hp
    split at hp
    · simp at hp
    · split at hp
      · exact enrichAvailable_gargs st.ipCache st.geoCache o p hp
      · simp at hp
  · intro cache la lo hmiss
    simp [reverse_geocode, hmiss]

theorem c6_reverse_geocode_guard_witness :
    (("12.34", "56.78") ∈ (process_radio ⟨"A", "u"⟩ ⟨[], [], []⟩ oraclesAvail).2.2) ∧
    ("12.34" ≠ "?" ∧ "56.78" ≠ "?") ∧
    (([] : GeoCache).lookup ("1", "2") = none) ∧
    reverse_geocode [] "1" "2" (Except.error ()) = (("?", "?"), [], true) :=
  ⟨by decide,
   c6_reverse_geocode_guard.1 ⟨"A", "u"⟩ ⟨[], [], []⟩ oraclesAvail ("12.34", "56.78")
     (by decide),
   rfl,
   c6_reverse_geocode_guard.2 [] "1" "2" rfl⟩

theorem process_radio_mem (row : StationInput) (st : PRState) (o : Oracles)
    (h : (row.name, row.url) ∈ st.entries) :
    process_radio row st o = (none, st, []) := by
  simp only [process_radio, clean_text]
  rw [if_pos h]

theorem process_radio_fresh (row : StationInput) (st : PRState) (o : Oracles)
    (h : (row.name, row.url) ∉ st.entries) :
    ∃ r ipc gc ga,
      process_radio row st o =
        (some r, ⟨(row.name, row.url) :: st.entries, ipc, gc⟩, ga) ∧
      r.name = row.name ∧ r.url = row.url := by
  simp only [process_radio, clean_text]
  rw [if_neg h]
  exact ⟨_, _, _, _, rfl, rfl, rfl⟩

theorem processCsv_count (items : List (StationInput × Oracles)) :
    ∀ (st : PRState) (k : Key),
      keyCount (process_csv items st).2 k ≤ 1 ∧
      (k ∈ st.entries → keyCount (process_csv items st).2 k = 0) := by
  induction items with
  | nil =>
    intro st k
    exact ⟨by simp [process_csv, keyCount], fun _ => by simp [process_csv, keyCount]⟩
  | cons item rest ih =>
    intro st k
    by_cases hmem : (item.1.name, item.1.url) ∈ st.entries
    · have hskip : process_csv (item :: rest) st = process_csv rest st := by
        simp only [process_csv, process_radio_mem item.1 st item.2 hmem]
      rw [hskip]
      exact ih st k
    · obtain ⟨r, ipc, gc, ga, heq, hname, hurl⟩ :=
        process_radio_fresh item.1 st item.2 hmem
      have hstep : process_csv (item :: rest) st =
          ((process_csv rest ⟨(item.1.name, item.1.url) :: st.entries, ipc, gc⟩).1,
           r :: (process_csv rest ⟨(item.1.name, item.1.url) :: st.entries, ipc, gc⟩).2) := by
        simp only [process_csv, heq]
      rw [hstep]
      have ih1 := ih ⟨(item.1.name, item.1.url) :: st.entries, ipc, gc⟩ k
      by_cases hk : (r.name, r.url) = k
      · have hkey : k = (item.1.name, item.1.url) := by rw [← hk, hname, hurl]
        have hzero :
            keyCount (process_csv rest ⟨(item.1.name, item.1.url) :: st.entries, ipc, gc⟩).2 k = 0 :=
          ih1.2 (by rw [hkey]; exact List.mem_cons_self _ _)
        constructor
        · have hcons :
              keyCount (r :: (process_csv rest ⟨(item.1.name, item.1.url) :: st.entries, ipc, gc⟩).2) k =
              keyCount (process_csv rest ⟨(item.1.name, item.1.url) :: st.entries, ipc, gc⟩).2 k + 1 := by
            simp [keyCount, List.countP_cons, hk]
          rw [hcons, hzero]
        · intro hkst
          exact absurd (hkey ▸ hkst) hmem
      · have hsame :
            keyCount (r :: (process_csv rest ⟨(item.1.name, item.1.url) :: st.entries, ipc, gc⟩).2) k =
            keyCount (process_csv rest ⟨(item.1.name, item.1.url) :: st.entries, ipc, gc⟩).2 k := by
          simp [keyCount, List.countP_cons, hk]
        constructor
        · rw [hsame]; exact ih1.1
        · intro hkst
          rw [hsame]
          exact ih1.2 (List.mem_cons_of_mem _ hkst)

theorem keyCount_append (a b : List Row) (k : Key) :
    keyCount (a ++ b) k = keyCount a k + keyCount b k := by
  simp [keyCount, List.countP_append]

theorem keyCount_pos_mem {rows : List Row} {k : Key} (h : 0 < keyCount rows k) :
    k ∈ rows.map (fun r => (r.name, r.url)) := by
  obtain ⟨r, hr, hrk⟩ := List.countP_pos_iff.mp h
  have : (r.name, r.url) = k := of_decide_eq_true hrk
  exact this ▸ List.mem_map_of_mem _ hr

/-- Claim C1: seeding the dedup ledger from the existing output store and
running the pipeline, then re-running it against the store extended by
the first rows written, never writes more than one row per (name, url)
key across both runs, and writes none at all for a key already present
in the store; the claim step of process_radio is an atomic
test-and-insert, so this holds for every dispatch order of the
concurrent tasks. -/
theorem c1_dedup (store : List Row) (items1 items2 : List (StationInput × Oracles)) (k : Key) :
    keyCount ((process_csv items1 ⟨load_existing_entries store, [], []⟩).2 ++
        (process_csv items2
          ⟨load_existing_entries
            (store ++ (process_csv items1 ⟨load_existing_entries store, [], []⟩).2),
           [], []⟩).2) k ≤ 1 ∧
    (k ∈ load_existing_entries store →
      keyCount ((process_csv items1 ⟨load_existing_entries store, [], []⟩).2 ++
        (process_csv items2
          ⟨load_existing_entries
            (store ++ (process_csv items1 ⟨load_existing_entries store, [], []⟩).2),
           [], []⟩).2) k = 0) := by
  have h1 := processCsv_count items1 ⟨load_existing_entries store, [], []⟩ k
  have h2 := processCsv_count items2
    ⟨load_existing_entries
      (store ++ (process_csv items1 ⟨load_existing_entries store, [], []⟩).2), [], []⟩ k
  rw [keyCount_append]
  have hentries :
      load_existing_entries
        (store ++ (process_csv items1 ⟨load_existing_entries store, [], []⟩).2) =
      load_existing_entries store ++
        ((process_csv items1 ⟨load_existing_entries store, [], []⟩).2).map
          (fun r => (r.name, r.url)) := by
    simp [load_existing_entries]
  constructor
  · rcases Nat.eq_zero_or_pos
      (keyCount (process_csv items1 ⟨load_existing_entries store, [], []⟩).2 k) with h0 | hpos
    · rw [h0]
      simpa using h2.1
    · have hk1 := keyCount_pos_mem hpos
      have hz2 : keyCount (process_csv items2
          ⟨load_existing_entries
            (store ++ (process_csv items1 ⟨load_existing_entries store, [], []⟩).2),
           [], []⟩).2 k = 0 := by
        apply h2.2
        show k ∈ load_existing_entries
          (store ++ (process_csv items1 ⟨load_existing_entries store, [], []⟩).2)
        rw [hentries]
        exact List.mem_append_right _ hk1
      rw [hz2]
      simpa using h1.1
  · intro hk
    have hz1 : keyCount (process_csv items1 ⟨load_existing_entries store, [], []⟩).2 k = 0 :=
      h1.2 hk
    have hz2 : keyCount (process_csv items2
        ⟨load_existing_entries
          (store ++ (process_csv items1 ⟨load_existing_entries store, [], []⟩).2),
         [], []⟩).2 k = 0 := by
      apply h2.2
      show k ∈ load_existing_entries
        (store ++ (process_csv items1 ⟨load_existing_entries store, [], []⟩).2)
      rw [hentries]
      exact List.mem_append_left _ hk
    rw [hz1, hz2]

theorem c1_dedup_witness :
    (("A", "u") ∈ load_existing_entries storeW) ∧
    keyCount ((process_csv itemsW ⟨load_existing_entries storeW, [], []⟩).2 ++
        (process_csv itemsW
          ⟨load_existing_entries
            (storeW ++ (process_csv itemsW ⟨load_existing_entries storeW, [], []⟩).2),
           [], []⟩).2) ("A", "u") ≤ 1 ∧
    keyCount ((process_csv itemsW ⟨load_existing_entries storeW, [], []⟩).2 ++
        (process_csv itemsW
          ⟨load_existing_entries
            (storeW ++ (process_csv itemsW ⟨load_existing_entries storeW, [], []⟩).2),
           [], []⟩).2) ("A", "u") = 0 :=
  ⟨by decide,
   (c1_dedup storeW itemsW itemsW ("A", "u")).1,
   (c1_dedup storeW itemsW itemsW ("A", "u")).2 (by decide)⟩
